import Mathlib

/-
Shallow embedding of the ShopPuls server (TypeScript sources under
`src/server` and `src/shared`).

Modelling conventions:
* Database rows and in-memory `Map` entries become Lean structures; a table
  (or a `Map` keyed by id) becomes a `List` of rows in insertion order, so
  `Map.set` on a fresh id and a SQL `INSERT` are both list appends, and a
  `Map.get` / `SELECT ... WHERE id = _` is `List.find?`.
* `MemStorage` (src/server/storage.ts) methods live in namespace `Mem`;
  `DatabaseStorage` (src/server/databaseStorage.ts) methods live in
  namespace `Db`.  The HTTP route handlers (src/server/routes.ts) import
  `storage` from `./databaseStorage`, so the handlers below call the `Db`
  versions; the OTP utility (src/server/util/otp.ts) imports `storage`
  from `../storage`, so it delegates to the `Mem` version.
* Points are `Int` (signed deltas), ids are `Nat`, times are `Nat`
  milliseconds.  Random draws (`nanoid(6)`, the 6-digit OTP) are passed in
  as explicit parameters.
* HTTP statuses are plain numerals (200, 201, 400, 403, 404, 500).
-/

namespace ShopPuls

/-- A row of the `rewards` table / an entry of `MemStorage.rewards`. -/
structure RewardEntry where
  id : Nat
  userId : Nat
  points : Int
  reason : String
  referenceId : Option Nat
deriving Repr, DecidableEq

/-- The fields of `InsertReward` (shared/schema.ts, `insertRewardSchema`). -/
structure InsertReward where
  userId : Nat
  points : Int
  reason : String
  referenceId : Option Nat
deriving Repr, DecidableEq

/-- A row of the `visits` table (the fields the modelled operations touch). -/
structure VisitRec where
  id : Nat
  userId : Nat
  partnerId : Nat
  status : String
  markedAsVisited : Bool
deriving Repr, DecidableEq

/-- A row of the `deals` table (the fields the modelled operations touch). -/
structure DealRec where
  id : Nat
  partnerId : Nat
  name : String
  category : String
  isActive : Bool
deriving Repr, DecidableEq

/-- The fields of `InsertDeal` relevant here; `insertDealSchema` omits
`isActive`, which both storages then set/default to `true`. -/
structure InsertDeal where
  partnerId : Nat
  name : String
  category : String
deriving Repr, DecidableEq

/-- A row of the `redemptions` table.  `code`/`status` are `Option` because
`insertRedemptionSchema` omits both, and `DatabaseStorage.createRedemption`
inserts the insert-record as-is: `status` falls back to the column default
`'pending'` while `code` (NOT NULL, no default) gets no value at all. -/
structure RedemptionRec where
  id : Nat
  userId : Nat
  partnerId : Nat
  points : Int
  amount : Int
  proofImageUrl : Option String
  code : Option String
  status : Option String
deriving Repr, DecidableEq

/-- The fields of `InsertRedemption` (`insertRedemptionSchema` omits `id`,
`createdAt`, `code`, `status`). -/
structure InsertRedemption where
  userId : Nat
  partnerId : Nat
  points : Int
  amount : Int
  proofImageUrl : Option String
deriving Repr, DecidableEq

/-- A row of the `reviews` table. -/
structure ReviewRec where
  id : Nat
  userId : Nat
  partnerId : Nat
  rating : Int
  comment : Option String
  isPublished : Bool
deriving Repr, DecidableEq

/-- The fields of `InsertReview` (`insertReviewSchema` omits `id`,
`createdAt`, `isPublished`; the rating carries no 1..5 refinement). -/
structure InsertReview where
  userId : Nat
  partnerId : Nat
  rating : Int
  comment : Option String
deriving Repr, DecidableEq

/-- A row of the `partner_stats` table / an entry of
`MemStorage.partnerStats` (keyed by partner and day). -/
structure StatRec where
  partnerId : Nat
  date : Nat
  storeViews : Nat
  dealViews : Nat
  scheduledVisits : Nat
  actualVisits : Nat
deriving Repr, DecidableEq

/-- A row of the `partner_stores` table (the fields the modelled
operations touch). -/
structure StoreRec where
  id : Nat
  userId : Nat
deriving Repr, DecidableEq

/-- The mutable state the modelled operations touch: the relational tables
(for `DatabaseStorage`) resp. the `Map`s (for `MemStorage`), plus the
`MemStorage` id counters, which double as the serial columns. -/
structure State where
  stores : List StoreRec
  deals : List DealRec
  visits : List VisitRec
  reviews : List ReviewRec
  rewards : List RewardEntry
  redemptions : List RedemptionRec
  stats : List StatRec
  dealIdCounter : Nat
  reviewIdCounter : Nat
  rewardIdCounter : Nat
  redemptionIdCounter : Nat
deriving Repr, DecidableEq

namespace Mem

/-- `MemStorage.getRewardsByUserId`. -/
def getRewardsByUserId (s : State) (userId : Nat) : List RewardEntry :=
  s.rewards.filter (fun r => r.userId == userId)

/-- `MemStorage.getTotalRewardPointsByUserId`:
`rewards.reduce((total, reward) => total + reward.points, 0)`. -/
def getTotalRewardPointsByUserId (s : State) (userId : Nat) : Int :=
  (getRewardsByUserId s userId).foldl (fun total reward => total + reward.points) 0

/-- `MemStorage.createReward`. -/
def createReward (s : State) (r : InsertReward) : RewardEntry × State :=
  let id := s.rewardIdCounter
  let newReward : RewardEntry :=
    { id := id, userId := r.userId, points := r.points,
      reason := r.reason, referenceId := r.referenceId }
  (newReward,
   { s with rewards := s.rewards ++ [newReward],
            rewardIdCounter := s.rewardIdCounter + 1 })

/-- `MemStorage.createRedemption`; `rawCode` stands for the `nanoid(6)`
draw, which the method uppercases. -/
def createRedemption (s : State) (r : InsertRedemption) (rawCode : String) :
    RedemptionRec × State :=
  let id := s.redemptionIdCounter
  let code := rawCode.toUpper
  let newRedemption : RedemptionRec :=
    { id := id, userId := r.userId, partnerId := r.partnerId,
      points := r.points, amount := r.amount,
      proofImageUrl := r.proofImageUrl,
      code := some code, status := some "pending" }
  let s1 :=
    { s with redemptions := s.redemptions ++ [newRedemption],
             redemptionIdCounter := s.redemptionIdCounter + 1 }
  let (_, s2) := createReward s1
    { userId := r.userId, points := -r.points,
      reason := "Redeemed points", referenceId := some id }
  (newRedemption, s2)

end Mem

namespace Db

/-- `DatabaseStorage.getTotalRewardPointsByUserId`:
`COALESCE(SUM(points), 0)` over the user's reward rows. -/
def getTotalRewardPointsByUserId (s : State) (userId : Nat) : Int :=
  ((s.rewards.filter (fun r => r.userId == userId)).map (fun r => r.points)).sum

/-- `DatabaseStorage.createReward`: a plain `INSERT ... RETURNING`. -/
def createReward (s : State) (r : InsertReward) : RewardEntry × State :=
  let id := s.rewardIdCounter
  let newReward : RewardEntry :=
    { id := id, userId := r.userId, points := r.points,
      reason := r.reason, referenceId := r.referenceId }
  (newReward,
   { s with rewards := s.rewards ++ [newReward],
            rewardIdCounter := s.rewardIdCounter + 1 })

/-- `DatabaseStorage.createRedemption`:
`db.insert(redemptions).values(redemption).returning()` with the parse
result as-is.  `insertRedemptionSchema` omits `code` and `status`: `status`
would fall back to its column default `'pending'`, but `code` is NOT NULL
with no default (shared/schema.ts, migrations/0001_init.sql), so a row
carrying no code violates the constraint: the INSERT raises, no row is
written, and the rejected promise lands in the caller's catch.  No reward
deduction is written on any path. -/
def createRedemption (s : State) (r : InsertRedemption) :
    Except String (RedemptionRec × State) :=
  let row : RedemptionRec :=
    { id := s.redemptionIdCounter, userId := r.userId, partnerId := r.partnerId,
      points := r.points, amount := r.amount,
      proofImageUrl := r.proofImageUrl,
      code := none, status := some "pending" }
  match row.code with
  | none =>
      .error "null value in column code of relation redemptions violates not-null constraint"
  | some _ =>
      .ok (row,
        { s with redemptions := s.redemptions ++ [row],
                 redemptionIdCounter := s.redemptionIdCounter + 1 })

end Db

namespace Routes

/-- `POST /api/consumer/redeem` (routes.ts): parse gives `points` (the
schema imposes no range), then the handler checks the `Db` balance, the
500 minimum and the 5000 maximum, and only then calls
`storage.createRedemption` (the `Db` implementation).  A rejected insert is
caught by the surrounding try/catch, which (the error being no ZodError)
answers 500 with no redemption. -/
def redeemHandler (s : State) (userId : Nat) (body : InsertRedemption) :
    Nat × Option RedemptionRec × State :=
  let totalPoints := Db.getTotalRewardPointsByUserId s userId
  if totalPoints < body.points then (400, none, s)
  else if body.points < 500 then (400, none, s)
  else if body.points > 5000 then (400, none, s)
  else
    match Db.createRedemption s { body with userId := userId } with
    | .error _ => (500, none, s)
    | .ok (redemption, s1) => (201, some redemption, s1)

end Routes

/-- A row of the `otps` table / a value of `MemStorage.otps`. -/
structure OtpRec where
  id : Nat
  phone : String
  otp : String
  expiresAt : Nat
deriving Repr, DecidableEq

/-- `MemStorage.otps` is a `Map<string, Otp>` keyed by phone, plus the id
counter. -/
structure MemOtpStore where
  otps : List (String × OtpRec)
  otpIdCounter : Nat
deriving Repr, DecidableEq

/-- JS `Map.set`: replace the binding in place when the key exists,
append it otherwise. -/
def mapSet (l : List (String × OtpRec)) (k : String) (v : OtpRec) :
    List (String × OtpRec) :=
  if l.any (fun p => p.1 == k) then
    l.map (fun p => if p.1 == k then (k, v) else p)
  else l ++ [(k, v)]

/-- JS `Map.get`. -/
def mapGet (l : List (String × OtpRec)) (k : String) : Option OtpRec :=
  (l.find? (fun p => p.1 == k)).map (fun p => p.2)

/-- The `otps` table for `DatabaseStorage`, plus the serial counter. -/
structure DbOtpStore where
  rows : List OtpRec
  nextId : Nat
deriving Repr, DecidableEq

namespace Mem

/-- `MemStorage.createOtp`: `this.otps.set(otp.phone, newOtp)`. -/
def createOtp (s : MemOtpStore) (phone otpValue : String) (expiresAt : Nat) :
    MemOtpStore :=
  let newOtp : OtpRec :=
    { id := s.otpIdCounter, phone := phone, otp := otpValue, expiresAt := expiresAt }
  { otps := mapSet s.otps phone newOtp, otpIdCounter := s.otpIdCounter + 1 }

/-- `MemStorage.getOtpByPhone`. -/
def getOtpByPhone (s : MemOtpStore) (phone : String) : Option OtpRec :=
  mapGet s.otps phone

/-- `MemStorage.verifyOtp`: fails on a missing or expired entry, then
compares the codes.  Note: the entry is not removed on success. -/
def verifyOtp (s : MemOtpStore) (phone otpValue : String) (now : Nat) : Bool :=
  match getOtpByPhone s phone with
  | none => false
  | some o => if o.expiresAt < now then false else o.otp == otpValue

end Mem

namespace Db

/-- `DatabaseStorage.createOtp`: deletes any rows for the phone, then
inserts the new row. -/
def createOtp (s : DbOtpStore) (phone otpValue : String) (expiresAt : Nat) :
    DbOtpStore :=
  let newOtp : OtpRec :=
    { id := s.nextId, phone := phone, otp := otpValue, expiresAt := expiresAt }
  { rows := (s.rows.filter (fun o => o.phone != phone)) ++ [newOtp],
    nextId := s.nextId + 1 }

/-- `DatabaseStorage.verifyOtp`: picks the first row for the phone, checks
the code and `new Date() < expiresAt`, and deletes the row on success. -/
def verifyOtp (s : DbOtpStore) (phone otpValue : String) (now : Nat) :
    Bool × DbOtpStore :=
  match s.rows.find? (fun o => o.phone == phone) with
  | none => (false, s)
  | some o =>
    let isValid := o.otp == otpValue && decide (now < o.expiresAt)
    if isValid then
      (true, { s with rows := s.rows.filter (fun r => r.id != o.id) })
    else (false, s)

end Db

/-- The 10-minute OTP lifetime of `generateAndSendOTP`
(`expiresAt.setMinutes(expiresAt.getMinutes() + 10)`), in milliseconds. -/
def otpTtlMillis : Nat := 600000

namespace Otp

/-- `generateAndSendOTP` (src/server/util/otp.ts): stores the freshly drawn
`code` for `phone` with expiry 10 minutes from `now`, via the `storage`
imported from `../storage`, i.e. the `MemStorage` implementation. -/
def generateAndSendOTP (s : MemOtpStore) (phone code : String) (now : Nat) :
    MemOtpStore :=
  Mem.createOtp s phone code (now + otpTtlMillis)

/-- `verifyOTP` (src/server/util/otp.ts): delegates to
`MemStorage.verifyOtp`. -/
def verifyOTP (s : MemOtpStore) (phone otpValue : String) (now : Nat) : Bool :=
  Mem.verifyOtp s phone otpValue now

end Otp

theorem mapGet_mapSet (l : List (String × OtpRec)) (k : String) (v : OtpRec) :
    mapGet (mapSet l k v) k = some v := by
  induction l with
  | nil => simp [mapSet, mapGet]
  | cons hd tl ih =>
    by_cases hk : hd.1 = k
    · simp [mapSet, mapGet, List.any_cons, hk, List.find?]
    · have hk' : (hd.1 == k) = false := by simpa using hk
      simp only [mapSet, List.any_cons, hk', Bool.false_or]
      by_cases ht : tl.any (fun p => p.1 == k)
      · simp only [ht, if_true]
        have := ih
        simp only [mapSet, ht, if_true] at this
        simpa [mapGet, List.map_cons, List.find?, hk'] using this
      · simp only [ht, Bool.false_eq_true, if_false]
        have := ih
        simp only [mapSet, ht, Bool.false_eq_true, if_false] at this
        simpa [mapGet, List.cons_append, List.find?, hk'] using this

theorem eq_of_mem_of_length_le_one {α : Type} {l : List α} (h : l.length ≤ 1)
    {a b : α} (ha : a ∈ l) (hb : b ∈ l) : a = b := by
  match l with
  | [] => cases ha
  | [x] =>
    rw [List.mem_singleton] at ha hb
    rw [ha, hb]
  | x :: y :: t => simp at h

theorem filter_ne_then_eq_nil (rows : List OtpRec) (p : String) :
    (rows.filter (fun o => o.phone != p)).filter (fun o => o.phone == p) = [] := by
  induction rows with
  | nil => rfl
  | cons hd tl ih =>
    by_cases h : hd.phone = p
    · simp [List.filter_cons, h, ih]
    · simp [List.filter_cons, h, ih]

/-- C6: an OTP issued by `generateAndSendOTP` is stored with expiry exactly
10 minutes after issuance; `verifyOTP` returns false whenever the current
time is past the stored `expiresAt`; and a matching, unexpired OTP for the
phone verifies successfully. -/
theorem C6_otp_expiry (s : MemOtpStore) (phone code value : String)
    (now now2 : Nat) (o : OtpRec)
    (hGet : Mem.getOtpByPhone s phone = some o) :
    Mem.getOtpByPhone (Otp.generateAndSendOTP s phone code now) phone =
      some { id := s.otpIdCounter, phone := phone, otp := code,
             expiresAt := now + otpTtlMillis } ∧
    (o.expiresAt < now2 → Otp.verifyOTP s phone value now2 = false) ∧
    (¬ o.expiresAt < now2 → o.otp = value →
      Otp.verifyOTP s phone value now2 = true) := by
  refine ⟨?_, ?_, ?_⟩
  · simpa [Otp.generateAndSendOTP, Mem.createOtp, Mem.getOtpByPhone] using
      mapGet_mapSet s.otps phone
        { id := s.otpIdCounter, phone := phone, otp := code,
          expiresAt := now + otpTtlMillis }
  · intro h
    simp [Otp.verifyOTP, Mem.verifyOtp, hGet, h]
  · intro h hv
    simp [Otp.verifyOTP, Mem.verifyOtp, hGet, h, hv]

theorem C6_otp_expiry_witness :
    Otp.verifyOTP ⟨[("9876543210", ⟨1, "9876543210", "654321", 100⟩)], 2⟩
      "9876543210" "654321" 101 = false ∧
    Otp.verifyOTP ⟨[("9876543210", ⟨1, "9876543210", "654321", 100⟩)], 2⟩
      "9876543210" "654321" 100 = true := by
  have h1 := C6_otp_expiry
    ⟨[("9876543210", ⟨1, "9876543210", "654321", 100⟩)], 2⟩
    "9876543210" "000000" "654321" 0 101 ⟨1, "9876543210", "654321", 100⟩
    (by decide)
  have h2 := C6_otp_expiry
    ⟨[("9876543210", ⟨1, "9876543210", "654321", 100⟩)], 2⟩
    "9876543210" "000000" "654321" 0 100 ⟨1, "9876543210", "654321", 100⟩
    (by decide)
  exact ⟨h1.2.1 (by decide), h2.2.2 (by decide) (by decide)⟩

/-- The store after issuing OTP `"123456"` for one phone at time 0 through
the real OTP utility. -/
def c5OtpStore : MemOtpStore :=
  Otp.generateAndSendOTP ⟨[], 1⟩ "9999999999" "123456" 0

/-- C5 counterexample: after one issuance, `verifyOTP` returns true twice in
a row for the same phone and code with no fresh OTP issued in between —
`MemStorage.verifyOtp`, to which the utility delegates, takes no lock on the
entry and performs no deletion (it does not modify state at all), so the OTP
is not single-use on the code path actually wired up. -/
theorem C5_counterexample :
    Otp.verifyOTP c5OtpStore "9999999999" "123456" 1 = true ∧
    Otp.verifyOTP c5OtpStore "9999999999" "123456" 2 = true := by
  constructor <;> decide

/-- C5 (amended): single-use holds for `DatabaseStorage.verifyOtp`: when the
table holds at most one row for the phone, a successful verification deletes
the row, so an immediate retry with the same code returns false; moreover
`DatabaseStorage.createOtp` maintains exactly one row per phone.  The
`verifyOTP` utility, however, delegates to `MemStorage.verifyOtp`, which
does not consume the entry (see the counterexample). -/
theorem C5_amended_db_otp_single_use (s : DbOtpStore) (phone value : String)
    (now now2 : Nat)
    (hUnique : (s.rows.filter (fun o => o.phone == phone)).length ≤ 1)
    (hFirst : (Db.verifyOtp s phone value now).1 = true) :
    (Db.verifyOtp (Db.verifyOtp s phone value now).2 phone value now2).1 = false ∧
    (∀ p c e,
      ((Db.createOtp s p c e).rows.filter (fun o => o.phone == p)).length = 1) := by
  constructor
  · unfold Db.verifyOtp at hFirst ⊢
    cases hFind : s.rows.find? (fun o => o.phone == phone) with
    | none => rw [hFind] at hFirst; exact absurd hFirst (by simp)
    | some o =>
      rw [hFind] at hFirst
      dsimp only at hFirst ⊢
      by_cases hValid : (o.otp == value && decide (now < o.expiresAt)) = true
      · simp only [hValid, if_true]
        have hNone : (s.rows.filter (fun r => r.id != o.id)).find?
            (fun o => o.phone == phone) = none := by
          rw [List.find?_eq_none]
          intro x hx hpx
          have hx' := List.mem_filter.mp hx
          have hoMem : o ∈ s.rows := List.mem_of_find?_eq_some hFind
          have hoP : (o.phone == phone) = true := by
            have hp := List.find?_some hFind
            simpa using hp
          have hxF : x ∈ s.rows.filter (fun o => o.phone == phone) :=
            List.mem_filter.mpr ⟨hx'.1, hpx⟩
          have hoF : o ∈ s.rows.filter (fun o => o.phone == phone) :=
            List.mem_filter.mpr ⟨hoMem, hoP⟩
          have heq : x = o := eq_of_mem_of_length_le_one hUnique hxF hoF
          rw [heq] at hx'
          simp at hx'
        simp [hNone]
      · rw [if_neg hValid] at hFirst
        exact absurd hFirst (by simp)
  · intro p c e
    unfold Db.createOtp
    simp only [List.filter_append, List.length_append, filter_ne_then_eq_nil]
    simp

theorem C5_amended_witness :
    (Db.verifyOtp (Db.verifyOtp ⟨[⟨1, "9999999999", "111111", 100⟩], 2⟩
        "9999999999" "111111" 50).2 "9999999999" "111111" 51).1 = false := by
  have h := C5_amended_db_otp_single_use
    ⟨[⟨1, "9999999999", "111111", 100⟩], 2⟩ "9999999999" "111111" 50 51
    (by decide) (by decide)
  exact h.1

namespace Db

/-- `DatabaseStorage.getVisitById`. -/
def getVisitById (s : State) (id : Nat) : Option VisitRec :=
  s.visits.find? (fun v => v.id == id)

/-- `DatabaseStorage.getPartnerStoreByUserId`. -/
def getPartnerStoreByUserId (s : State) (userId : Nat) : Option StoreRec :=
  s.stores.find? (fun st => st.userId == userId)

/-- `DatabaseStorage.incrementActualVisits`: bump the day's counter row, or
create it. -/
def incrementActualVisits (s : State) (partnerId today : Nat) : State :=
  match s.stats.find? (fun st => st.partnerId == partnerId && st.date == today) with
  | some _ =>
      { s with stats := s.stats.map (fun st =>
          if st.partnerId == partnerId && st.date == today then
            { st with actualVisits := st.actualVisits + 1 }
          else st) }
  | none =>
      { s with stats := s.stats ++
          [{ partnerId := partnerId, date := today, storeViews := 0,
             dealViews := 0, scheduledVisits := 0, actualVisits := 1 }] }

/-- `DatabaseStorage.markVisitAsCompleted`: set status/markedAsVisited and
bump the partner's visit counter.  Unlike the `Mem` version, it writes no
reward. -/
def markVisitAsCompleted (s : State) (id today : Nat) : Option VisitRec × State :=
  match getVisitById s id with
  | none => (none, s)
  | some visit =>
    let updatedVisit : VisitRec :=
      { visit with status := "completed", markedAsVisited := true }
    let s1 := { s with visits := s.visits.map (fun v =>
                  if v.id == id then
                    { v with status := "completed", markedAsVisited := true }
                  else v) }
    let s2 := incrementActualVisits s1 visit.partnerId today
    (some updatedVisit, s2)

end Db

namespace Mem

/-- `MemStorage.getVisitById`. -/
def getVisitById (s : State) (id : Nat) : Option VisitRec :=
  s.visits.find? (fun v => v.id == id)

/-- `MemStorage.incrementActualVisits`. -/
def incrementActualVisits (s : State) (partnerId today : Nat) : State :=
  match s.stats.find? (fun st => st.partnerId == partnerId && st.date == today) with
  | some _ =>
      { s with stats := s.stats.map (fun st =>
          if st.partnerId == partnerId && st.date == today then
            { st with actualVisits := st.actualVisits + 1 }
          else st) }
  | none =>
      { s with stats := s.stats ++
          [{ partnerId := partnerId, date := today, storeViews := 0,
             dealViews := 0, scheduledVisits := 0, actualVisits := 1 }] }

/-- `MemStorage.markVisitAsCompleted`: additionally creates the 100-point
"Visited a partner store" reward. -/
def markVisitAsCompleted (s : State) (id today : Nat) : Option VisitRec × State :=
  match getVisitById s id with
  | none => (none, s)
  | some visit =>
    let updatedVisit : VisitRec :=
      { visit with status := "completed", markedAsVisited := true }
    let s1 := { s with visits := s.visits.map (fun v =>
                  if v.id == id then
                    { v with status := "completed", markedAsVisited := true }
                  else v) }
    let s2 := incrementActualVisits s1 visit.partnerId today
    let (_, s3) := createReward s2
      { userId := visit.userId, points := 100,
        reason := "Visited a partner store", referenceId := some visit.id }
    (some updatedVisit, s3)

end Mem

namespace Routes

/-- `POST /api/consumer/visits/:id/complete` (routes.ts): ownership check,
then `storage.markVisitAsCompleted` (the `Db` implementation), then a
100-point "Completed store visit" reward.  The visit's current status is
never inspected. -/
def consumerCompleteVisitHandler (s : State) (userId visitId today : Nat) :
    Nat × State :=
  match Db.getVisitById s visitId with
  | none => (404, s)
  | some visit =>
    if visit.userId != userId then (403, s)
    else
      match Db.markVisitAsCompleted s visitId today with
      | (none, s1) => (404, s1)
      | (some _, s1) =>
        let (_, s2) := Db.createReward s1
          { userId := userId, points := 100,
            reason := "Completed store visit", referenceId := some visitId }
        (200, s2)

/-- `POST /api/partner/visits/:id/complete` (routes.ts): store lookup and
permission check, then `storage.markVisitAsCompleted` (the `Db`
implementation).  No reward is created on this path. -/
def partnerCompleteVisitHandler (s : State) (userId visitId today : Nat) :
    Nat × State :=
  match Db.getPartnerStoreByUserId s userId with
  | none => (404, s)
  | some store =>
    match Db.getVisitById s visitId with
    | none => (404, s)
    | some visit =>
      if visit.partnerId != store.id then (403, s)
      else
        let (_, s1) := Db.markVisitAsCompleted s visitId today
        (200, s1)

end Routes

theorem find?_complete_update (l : List VisitRec) (id : Nat) (v : VisitRec)
    (h : l.find? (fun w => w.id == id) = some v) :
    (l.map (fun w => if w.id == id then
        { w with status := "completed", markedAsVisited := true } else w)).find?
      (fun w => w.id == id)
      = some { v with status := "completed", markedAsVisited := true } := by
  induction l with
  | nil => simp [List.find?] at h
  | cons hd tl ih =>
    by_cases hh : (hd.id == id) = true
    · have hv : hd = v := by simpa [List.find?, hh] using h
      subst hv
      simp [List.find?, hh]
    · have hh' : (hd.id == id) = false := by simpa using hh
      have h' : List.find? (fun w => w.id == id) tl = some v := by
        simpa [List.find?, hh'] using h
      simpa [List.find?, hh'] using ih h'

theorem db_incrementActualVisits_parts (s : State) (pid d : Nat) :
    (Db.incrementActualVisits s pid d).rewards = s.rewards ∧
    (Db.incrementActualVisits s pid d).visits = s.visits ∧
    (Db.incrementActualVisits s pid d).redemptions = s.redemptions ∧
    (Db.incrementActualVisits s pid d).rewardIdCounter = s.rewardIdCounter := by
  unfold Db.incrementActualVisits
  split <;> exact ⟨rfl, rfl, rfl, rfl⟩

theorem db_total_of_append (s s' : State) (e : RewardEntry) (u : Nat)
    (h : s'.rewards = s.rewards ++ [e]) :
    Db.getTotalRewardPointsByUserId s' u =
      Db.getTotalRewardPointsByUserId s u +
        (if e.userId == u then e.points else 0) := by
  unfold Db.getTotalRewardPointsByUserId
  rw [h, List.filter_append, List.map_append, List.sum_append]
  by_cases he : (e.userId == u) = true
  · simp [List.filter_cons, he]
  · simp [List.filter_cons, he]

theorem db_mark_found_eq (s : State) (vid today : Nat) (v : VisitRec)
    (h : Db.getVisitById s vid = some v) :
    Db.markVisitAsCompleted s vid today =
      (some { v with status := "completed", markedAsVisited := true },
       Db.incrementActualVisits
         { s with visits := s.visits.map (fun w => if w.id == vid then
             { w with status := "completed", markedAsVisited := true } else w) }
         v.partnerId today) := by
  unfold Db.markVisitAsCompleted
  rw [h]

theorem consumer_complete_success (s : State) (u vid today : Nat) (v : VisitRec)
    (hGet : Db.getVisitById s vid = some v) (hOwn : v.userId = u) :
    (Routes.consumerCompleteVisitHandler s u vid today).1 = 200 ∧
    (Routes.consumerCompleteVisitHandler s u vid today).2.rewards =
      s.rewards ++
        [{ id := s.rewardIdCounter, userId := u, points := 100,
           reason := "Completed store visit", referenceId := some vid }] ∧
    (Routes.consumerCompleteVisitHandler s u vid today).2.rewardIdCounter =
      s.rewardIdCounter + 1 ∧
    Db.getVisitById (Routes.consumerCompleteVisitHandler s u vid today).2 vid =
      some { v with status := "completed", markedAsVisited := true } := by
  obtain ⟨hr, hv, hrd, hc⟩ := db_incrementActualVisits_parts
    { s with visits := s.visits.map (fun w => if w.id == vid then
        { w with status := "completed", markedAsVisited := true } else w) }
    v.partnerId today
  unfold Routes.consumerCompleteVisitHandler
  rw [hGet]
  dsimp only
  rw [if_neg (by simp [hOwn] : ((v.userId != u) = true → False))]
  rw [db_mark_found_eq s vid today v hGet]
  dsimp only
  unfold Db.createReward
  dsimp only
  refine ⟨rfl, ?_, ?_, ?_⟩
  · rw [hr, hc]
  · rw [hc]
  · unfold Db.getVisitById at hGet ⊢
    dsimp only
    rw [hv]
    dsimp only
    exact find?_complete_update s.visits vid v hGet

/-- C10: the consumer completion endpoint never inspects the visit's
status: for any existing visit owned by the requesting consumer it answers
200 and appends a fresh 100-point "Completed store visit" reward, so each
repetition raises the user's balance by another 100 — the reward effect is
not idempotent. -/
theorem C10_consumer_completion_not_idempotent (s : State)
    (u vid today : Nat) (v : VisitRec)
    (hGet : Db.getVisitById s vid = some v) (hOwn : v.userId = u) :
    (Routes.consumerCompleteVisitHandler s u vid today).1 = 200 ∧
    (Routes.consumerCompleteVisitHandler s u vid today).2.rewards =
      s.rewards ++
        [{ id := s.rewardIdCounter, userId := u, points := 100,
           reason := "Completed store visit", referenceId := some vid }] ∧
    Db.getTotalRewardPointsByUserId
        (Routes.consumerCompleteVisitHandler s u vid today).2 u =
      Db.getTotalRewardPointsByUserId s u + 100 ∧
    (Routes.consumerCompleteVisitHandler
        (Routes.consumerCompleteVisitHandler s u vid today).2 u vid today).1 = 200 ∧
    Db.getTotalRewardPointsByUserId
        (Routes.consumerCompleteVisitHandler
          (Routes.consumerCompleteVisitHandler s u vid today).2 u vid today).2 u =
      Db.getTotalRewardPointsByUserId s u + 200 := by
  obtain ⟨h1, h2, h3, h4⟩ := consumer_complete_success s u vid today v hGet hOwn
  have hb1 : Db.getTotalRewardPointsByUserId
      (Routes.consumerCompleteVisitHandler s u vid today).2 u =
      Db.getTotalRewardPointsByUserId s u + 100 := by
    have := db_total_of_append s (Routes.consumerCompleteVisitHandler s u vid today).2
      { id := s.rewardIdCounter, userId := u, points := 100,
        reason := "Completed store visit", referenceId := some vid } u h2
    simpa using this
  obtain ⟨g1, g2, g3, g4⟩ := consumer_complete_success
    (Routes.consumerCompleteVisitHandler s u vid today).2 u vid today
    { v with status := "completed", markedAsVisited := true } h4 hOwn
  have hb2 : Db.getTotalRewardPointsByUserId
      (Routes.consumerCompleteVisitHandler
        (Routes.consumerCompleteVisitHandler s u vid today).2 u vid today).2 u =
      Db.getTotalRewardPointsByUserId
        (Routes.consumerCompleteVisitHandler s u vid today).2 u + 100 := by
    have := db_total_of_append
      (Routes.consumerCompleteVisitHandler s u vid today).2
      (Routes.consumerCompleteVisitHandler
        (Routes.consumerCompleteVisitHandler s u vid today).2 u vid today).2
      { id := (Routes.consumerCompleteVisitHandler s u vid today).2.rewardIdCounter,
        userId := u, points := 100,
        reason := "Completed store visit", referenceId := some vid } u g2
    simpa using this
  refine ⟨h1, h2, hb1, g1, ?_⟩
  rw [hb2, hb1]
  ring

/-- A completed visit owned by consumer 3: used to exercise the consumer
completion endpoint on a visit that is already completed. -/
def c10State : State :=
  { stores := [], deals := [],
    visits := [{ id := 7, userId := 3, partnerId := 1,
                 status := "completed", markedAsVisited := true }],
    reviews := [],
    rewards := [{ id := 1, userId := 3, points := 100,
                  reason := "Completed store visit", referenceId := some 7 }],
    redemptions := [], stats := [],
    dealIdCounter := 1, reviewIdCounter := 1, rewardIdCounter := 2,
    redemptionIdCounter := 1 }

theorem C10_witness :
    (Routes.consumerCompleteVisitHandler c10State 3 7 0).1 = 200 ∧
    Db.getTotalRewardPointsByUserId
        (Routes.consumerCompleteVisitHandler c10State 3 7 0).2 3 =
      Db.getTotalRewardPointsByUserId c10State 3 + 100 ∧
    (Routes.consumerCompleteVisitHandler
        (Routes.consumerCompleteVisitHandler c10State 3 7 0).2 3 7 0).1 = 200 ∧
    Db.getTotalRewardPointsByUserId
        (Routes.consumerCompleteVisitHandler
          (Routes.consumerCompleteVisitHandler c10State 3 7 0).2 3 7 0).2 3 =
      Db.getTotalRewardPointsByUserId c10State 3 + 200 := by
  have h := C10_consumer_completion_not_idempotent c10State 3 7 0
    { id := 7, userId := 3, partnerId := 1,
      status := "completed", markedAsVisited := true }
    (by decide) rfl
  exact ⟨h.1, h.2.2.1, h.2.2.2.1, h.2.2.2.2⟩

/-- A partner (user 10, store 1) with a scheduled visit by consumer 2, and
an empty reward ledger. -/
def c7State : State :=
  { stores := [{ id := 1, userId := 10 }], deals := [],
    visits := [{ id := 5, userId := 2, partnerId := 1,
                 status := "scheduled", markedAsVisited := false }],
    reviews := [], rewards := [], redemptions := [], stats := [],
    dealIdCounter := 1, reviewIdCounter := 1, rewardIdCounter := 1,
    redemptionIdCounter := 1 }

/-- C7 counterexample: completing a visit through the partner endpoint
succeeds (200) and marks the visit completed, yet creates no reward entry
at all — `storage` in routes.ts is the `DatabaseStorage`, whose
`markVisitAsCompleted` writes no reward, and the partner handler adds none
either; so "the completion operation … creates a Reward entry of 100
points" fails on the partner path. -/
theorem C7_counterexample :
    (Routes.partnerCompleteVisitHandler c7State 10 5 0).1 = 200 ∧
    Db.getVisitById (Routes.partnerCompleteVisitHandler c7State 10 5 0).2 5 =
      some { id := 5, userId := 2, partnerId := 1,
             status := "completed", markedAsVisited := true } ∧
    (Routes.partnerCompleteVisitHandler c7State 10 5 0).2.rewards = [] := by
  refine ⟨by decide, by decide, by decide⟩

/-- C7 (amended): through the `DatabaseStorage` wired into the routes, both
completion endpoints set the visit's status to "completed" and
markedAsVisited to true, but only the consumer endpoint creates a 100-point
reward for the visiting user; the partner endpoint leaves the reward ledger
unchanged. -/
theorem C7_amended_visit_completion (s : State) (cu pu vid today : Nat)
    (v : VisitRec) :
    (Db.getVisitById s vid = some v → v.userId = cu →
      (Routes.consumerCompleteVisitHandler s cu vid today).1 = 200 ∧
      Db.getVisitById (Routes.consumerCompleteVisitHandler s cu vid today).2 vid =
        some { v with status := "completed", markedAsVisited := true } ∧
      (Routes.consumerCompleteVisitHandler s cu vid today).2.rewards =
        s.rewards ++
          [{ id := s.rewardIdCounter, userId := cu, points := 100,
             reason := "Completed store visit", referenceId := some vid }]) ∧
    (∀ store, Db.getPartnerStoreByUserId s pu = some store →
      Db.getVisitById s vid = some v → v.partnerId = store.id →
      (Routes.partnerCompleteVisitHandler s pu vid today).1 = 200 ∧
      Db.getVisitById (Routes.partnerCompleteVisitHandler s pu vid today).2 vid =
        some { v with status := "completed", markedAsVisited := true } ∧
      (Routes.partnerCompleteVisitHandler s pu vid today).2.rewards =
        s.rewards) := by
  constructor
  · intro hGet hOwn
    obtain ⟨h1, h2, _, h4⟩ := consumer_complete_success s cu vid today v hGet hOwn
    exact ⟨h1, h4, h2⟩
  · intro store hStore hGet hPid
    obtain ⟨hr, hv, hrd, hc⟩ := db_incrementActualVisits_parts
      { s with visits := s.visits.map (fun w => if w.id == vid then
          { w with status := "completed", markedAsVisited := true } else w) }
      v.partnerId today
    unfold Routes.partnerCompleteVisitHandler
    rw [hStore]
    dsimp only
    rw [hGet]
    dsimp only
    rw [if_neg (by simp [hPid] : ((v.partnerId != store.id) = true → False))]
    rw [db_mark_found_eq s vid today v hGet]
    refine ⟨rfl, ?_, hr⟩
    unfold Db.getVisitById at hGet ⊢
    dsimp only
    rw [hv]
    exact find?_complete_update s.visits vid v hGet

theorem C7_amended_witness :
    ((Routes.consumerCompleteVisitHandler c7State 2 5 0).1 = 200 ∧
      (Routes.consumerCompleteVisitHandler c7State 2 5 0).2.rewards =
        c7State.rewards ++
          [{ id := c7State.rewardIdCounter, userId := 2, points := 100,
             reason := "Completed store visit", referenceId := some 5 }]) ∧
    ((Routes.partnerCompleteVisitHandler c7State 10 5 0).1 = 200 ∧
      (Routes.partnerCompleteVisitHandler c7State 10 5 0).2.rewards =
        c7State.rewards) := by
  have h := C7_amended_visit_completion c7State 2 10 5 0
    { id := 5, userId := 2, partnerId := 1,
      status := "scheduled", markedAsVisited := false }
  have hc := h.1 (by decide) rfl
  have hp := h.2 { id := 1, userId := 10 } (by decide) (by decide) rfl
  exact ⟨⟨hc.1, hc.2.2⟩, ⟨hp.1, hp.2.2⟩⟩

theorem foldl_add_points (l : List RewardEntry) (init : Int) :
    l.foldl (fun total reward => total + reward.points) init
      = init + (l.map (fun r => r.points)).sum := by
  induction l generalizing init with
  | nil => simp
  | cons hd tl ih =>
    rw [List.foldl_cons, ih, List.map_cons, List.sum_cons]
    ring

theorem mem_total_eq_db_total (s : State) (u : Nat) :
    Mem.getTotalRewardPointsByUserId s u = Db.getTotalRewardPointsByUserId s u := by
  unfold Mem.getTotalRewardPointsByUserId Mem.getRewardsByUserId
    Db.getTotalRewardPointsByUserId
  simpa using foldl_add_points (s.rewards.filter (fun r => r.userId == u)) 0

theorem mem_total_of_append (s s' : State) (e : RewardEntry) (u : Nat)
    (h : s'.rewards = s.rewards ++ [e]) :
    Mem.getTotalRewardPointsByUserId s' u =
      Mem.getTotalRewardPointsByUserId s u +
        (if e.userId == u then e.points else 0) := by
  rw [mem_total_eq_db_total, mem_total_eq_db_total]
  exact db_total_of_append s s' e u h

/-- Consumer 1 holding a 600-point reward ledger: a state in which a
500-point redemption passes every validation check. -/
def c2State : State :=
  { stores := [], deals := [], visits := [], reviews := [],
    rewards := [{ id := 1, userId := 1, points := 600,
                  reason := "Completed store visit", referenceId := none }],
    redemptions := [], stats := [],
    dealIdCounter := 1, reviewIdCounter := 1, rewardIdCounter := 2,
    redemptionIdCounter := 1 }

theorem redeem_cases (s : State) (u : Nat) (body : InsertRedemption) :
    Routes.redeemHandler s u body =
      if 500 ≤ body.points ∧ body.points ≤ 5000 ∧
          body.points ≤ Db.getTotalRewardPointsByUserId s u
      then (500, none, s) else (400, none, s) := by
  unfold Routes.redeemHandler
  dsimp only
  by_cases h1 : Db.getTotalRewardPointsByUserId s u < body.points
  · rw [if_pos h1, if_neg (by omega)]
  · rw [if_neg h1]
    by_cases h2 : body.points < 500
    · rw [if_pos h2, if_neg (by omega)]
    · rw [if_neg h2]
      by_cases h3 : body.points > 5000
      · rw [if_pos h3, if_neg (by omega)]
      · rw [if_neg h3, if_pos (by omega)]
        rfl

/-- C1: the redeem route's validation behaves as claimed off the success
window — 400 with an unchanged state exactly when the request violates
500 ≤ p ≤ 5000 or p > balance, and 499 in particular is always rejected —
but the claimed success path is unreachable: within the window the
redemption INSERT violates the NOT NULL `code` column, so the route answers
500 and creates no redemption; 201 is never returned.  The last conjunct
evaluates the failing input: a consumer holding 600 points redeeming 500
gets 500 and an unchanged state. -/
theorem C1_redeem_validation_and_insert_failure (s : State) (u : Nat)
    (body : InsertRedemption) :
    (Routes.redeemHandler s u body).1 ≠ 201 ∧
    ((Routes.redeemHandler s u body).1 = 500 ↔
      (500 ≤ body.points ∧ body.points ≤ 5000 ∧
       body.points ≤ Db.getTotalRewardPointsByUserId s u)) ∧
    ((Routes.redeemHandler s u body).1 = 400 ↔
      ¬(500 ≤ body.points ∧ body.points ≤ 5000 ∧
        body.points ≤ Db.getTotalRewardPointsByUserId s u)) ∧
    (Routes.redeemHandler s u body).2.1 = none ∧
    (Routes.redeemHandler s u body).2.2 = s ∧
    (Routes.redeemHandler s u { body with points := 499 }).1 = 400 ∧
    Routes.redeemHandler c2State 1
      { userId := 1, partnerId := 1, points := 500, amount := 5,
        proofImageUrl := none } = (500, none, c2State) := by
  rw [redeem_cases s u body]
  refine ⟨?_, ?_, ?_, ?_, ?_, ?_, by decide⟩
  · split
    · simp
    · simp
  · split
    · case isTrue h => simp [h]
    · case isFalse h => simp [h]
  · split
    · case isTrue h => simp [h]
    · case isFalse h => simp [h]
  · split
    · rfl
    · rfl
  · split
    · rfl
    · rfl
  · rw [redeem_cases s u { body with points := 499 }]
    split
    · case isTrue h =>
        exfalso
        have h499 : ({ body with points := 499 } : InsertRedemption).points = 499 := rfl
        rw [h499] at h
        omega
    · rfl

/-- C2: whenever a redemption completes, the reward deduction follows as a
second, separate (non-atomic) write: `MemStorage.createRedemption` first
appends the redemption record and then appends a Reward with points = −p
and reason "Redeemed points" for the redeeming user, so that user's balance
drops by exactly p.  On the `DatabaseStorage` wired into the routes no
redemption ever completes (the INSERT always raises — see C1 — and the
route never answers 201), so no successful redemption without the deduction
exists anywhere in the program. -/
theorem C2_redemption_deduction (s : State) (r : InsertRedemption)
    (rawCode : String) (u : Nat) (body : InsertRedemption) :
    (Mem.createRedemption s r rawCode).2.redemptions =
      s.redemptions ++ [(Mem.createRedemption s r rawCode).1] ∧
    (Mem.createRedemption s r rawCode).2.rewards =
      s.rewards ++
        [{ id := s.rewardIdCounter, userId := r.userId, points := -r.points,
           reason := "Redeemed points", referenceId := some s.redemptionIdCounter }] ∧
    Mem.getTotalRewardPointsByUserId (Mem.createRedemption s r rawCode).2 r.userId =
      Mem.getTotalRewardPointsByUserId s r.userId - r.points ∧
    (∃ e, Db.createRedemption s r = Except.error e) ∧
    (Routes.redeemHandler s u body).1 ≠ 201 := by
  have hrw : (Mem.createRedemption s r rawCode).2.rewards =
      s.rewards ++
        [{ id := s.rewardIdCounter, userId := r.userId, points := -r.points,
           reason := "Redeemed points", referenceId := some s.redemptionIdCounter }] := by
    unfold Mem.createRedemption Mem.createReward
    rfl
  refine ⟨?_, hrw, ?_, ⟨_, rfl⟩, ?_⟩
  · unfold Mem.createRedemption Mem.createReward
    rfl
  · have h := mem_total_of_append s (Mem.createRedemption s r rawCode).2
      { id := s.rewardIdCounter, userId := r.userId, points := -r.points,
        reason := "Redeemed points", referenceId := some s.redemptionIdCounter }
      r.userId hrw
    simpa using h
  · rw [redeem_cases s u body]
    split
    · simp
    · simp

/-- C8: every redemption that is created starts in status "pending" and
carries the generated code — `MemStorage.createRedemption` stores and
returns the record with status "pending" and code = the 6-character
`nanoid(6)` draw uppercased — and the `DatabaseStorage.createRedemption`
wired into the redeem route creates no redemption at all (its INSERT
violates the NOT NULL `code` column and raises), so the route never
answers 201 and never returns any redemption record lacking the code. -/
theorem C8_redemption_code (s : State) (r : InsertRedemption)
    (rawCode : String) (u : Nat) (body : InsertRedemption) :
    (Mem.createRedemption s r rawCode).1.status = some "pending" ∧
    (Mem.createRedemption s r rawCode).1.code = some rawCode.toUpper ∧
    (Mem.createRedemption s r rawCode).2.redemptions =
      s.redemptions ++ [(Mem.createRedemption s r rawCode).1] ∧
    (∃ e, Db.createRedemption s r = Except.error e) ∧
    (Routes.redeemHandler s u body).1 ≠ 201 ∧
    (Routes.redeemHandler s u body).2.1 = none := by
  refine ⟨rfl, rfl, ?_, ⟨_, rfl⟩, ?_, ?_⟩
  · unfold Mem.createRedemption Mem.createReward
    rfl
  · rw [redeem_cases s u body]
    split
    · simp
    · simp
  · rw [redeem_cases s u body]
    split
    · rfl
    · rfl

/-- A PATCH body for a deal (`req.body` of the update route), restricted to
the modelled columns: any subset of them may be present. -/
structure DealPatch where
  partnerId : Option Nat := none
  name : Option String := none
  category : Option String := none
  isActive : Option Bool := none
deriving Repr, DecidableEq

/-- JS object spread `{ ...deal, ...dealData }` on the modelled columns. -/
def applyDealPatch (d : DealRec) (p : DealPatch) : DealRec :=
  { id := d.id,
    partnerId := p.partnerId.getD d.partnerId,
    name := p.name.getD d.name,
    category := p.category.getD d.category,
    isActive := p.isActive.getD d.isActive }

namespace Db

/-- `DatabaseStorage.getDealById`. -/
def getDealById (s : State) (id : Nat) : Option DealRec :=
  s.deals.find? (fun d => d.id == id)

/-- `DatabaseStorage.getDealsByPartnerId`. -/
def getDealsByPartnerId (s : State) (partnerId : Nat) : List DealRec :=
  s.deals.filter (fun d => d.partnerId == partnerId)

/-- `DatabaseStorage.createDeal`: plain insert; `isActive` falls back to the
column default `true` (MemStorage sets it to `true` explicitly). -/
def createDeal (s : State) (d : InsertDeal) : DealRec × State :=
  let id := s.dealIdCounter
  let newDeal : DealRec :=
    { id := id, partnerId := d.partnerId, name := d.name,
      category := d.category, isActive := true }
  (newDeal,
   { s with deals := s.deals ++ [newDeal], dealIdCounter := s.dealIdCounter + 1 })

/-- `DatabaseStorage.updateDeal`: `UPDATE ... SET dealData WHERE id = _
RETURNING`. -/
def updateDeal (s : State) (id : Nat) (p : DealPatch) : Option DealRec × State :=
  let s1 := { s with deals := s.deals.map (fun d =>
                if d.id == id then applyDealPatch d p else d) }
  (getDealById s1 id, s1)

/-- `DatabaseStorage.deactivateDeal`: `UPDATE ... SET isActive = false`. -/
def deactivateDeal (s : State) (id : Nat) : Option DealRec × State :=
  let s1 := { s with deals := s.deals.map (fun d =>
                if d.id == id then { d with isActive := false } else d) }
  (getDealById s1 id, s1)

/-- `DatabaseStorage.createReview`: plain insert; `isPublished` falls back
to the column default `false`; no reward is written. -/
def createReview (s : State) (r : InsertReview) : ReviewRec × State :=
  let id := s.reviewIdCounter
  let newReview : ReviewRec :=
    { id := id, userId := r.userId, partnerId := r.partnerId,
      rating := r.rating, comment := r.comment, isPublished := false }
  (newReview,
   { s with reviews := s.reviews ++ [newReview],
            reviewIdCounter := s.reviewIdCounter + 1 })

end Db

namespace Mem

/-- `MemStorage.createReview`: stores the review with `isPublished: false`
and additionally awards 100 points for writing a review. -/
def createReview (s : State) (r : InsertReview) : ReviewRec × State :=
  let id := s.reviewIdCounter
  let newReview : ReviewRec :=
    { id := id, userId := r.userId, partnerId := r.partnerId,
      rating := r.rating, comment := r.comment, isPublished := false }
  let s1 := { s with reviews := s.reviews ++ [newReview],
                     reviewIdCounter := s.reviewIdCounter + 1 }
  let (_, s2) := createReward s1
    { userId := r.userId, points := 100,
      reason := "Wrote a review", referenceId := some id }
  (newReview, s2)

end Mem

namespace Routes

/-- `POST /api/consumer/reviews`: `insertReviewSchema.parse` (which imposes
no range restriction on the rating), then `storage.createReview` (the `Db`
implementation), answering 201. -/
def submitReviewHandler (s : State) (userId partnerId : Nat) (rating : Int)
    (comment : Option String) : Nat × Option ReviewRec × State :=
  let (review, s1) := Db.createReview s
    { userId := userId, partnerId := partnerId,
      rating := rating, comment := comment }
  (201, some review, s1)

/-- `POST /api/partner/deals`: resolve the partner's store, count its active
deals in the request body's category, reject the 4th with 400, otherwise
parse (`partnerId` overridden with the store id) and create the deal. -/
def createDealHandler (s : State) (userId : Nat) (body : InsertDeal) :
    Nat × State :=
  match Db.getPartnerStoreByUserId s userId with
  | none => (404, s)
  | some store =>
    let existingDeals := Db.getDealsByPartnerId s store.id
    let activeDealsInCategory := existingDeals.filter
      (fun deal => deal.isActive && deal.category == body.category)
    if activeDealsInCategory.length ≥ 3 then (400, s)
    else
      let (_, s1) := Db.createDeal s { body with partnerId := store.id }
      (201, s1)

/-- `PATCH /api/partner/deals/:id`: store/deal lookups and permission check,
then `storage.updateDeal(dealId, req.body)` — with no re-check of the
category cap. -/
def updateDealHandler (s : State) (userId dealId : Nat) (p : DealPatch) :
    Nat × State :=
  match Db.getPartnerStoreByUserId s userId with
  | none => (404, s)
  | some store =>
    match Db.getDealById s dealId with
    | none => (404, s)
    | some deal =>
      if deal.partnerId != store.id then (403, s)
      else
        let (_, s1) := Db.updateDeal s dealId p
        (200, s1)

/-- `POST /api/partner/deals/:id/deactivate`. -/
def deactivateDealHandler (s : State) (userId dealId : Nat) : Nat × State :=
  match Db.getPartnerStoreByUserId s userId with
  | none => (404, s)
  | some store =>
    match Db.getDealById s dealId with
    | none => (404, s)
    | some deal =>
      if deal.partnerId != store.id then (403, s)
      else
        let (_, s1) := Db.deactivateDeal s dealId
        (200, s1)

end Routes

/-- The number of simultaneously active deals a store has in one category
(stated with the exact predicate the create route's two filters compose
to). -/
def countActiveDeals (s : State) (partnerId : Nat) (category : String) : Nat :=
  (s.deals.filter (fun d =>
    (d.isActive && d.category == category) && d.partnerId == partnerId)).length

/-- The bound of the claim: at most 3 simultaneously active deals per store
and category. -/
def DealCapOK (s : State) : Prop :=
  ∀ pid cat, countActiveDeals s pid cat ≤ 3

theorem route_count_eq (s : State) (pid : Nat) (cat : String) :
    ((Db.getDealsByPartnerId s pid).filter
        (fun deal => deal.isActive && deal.category == cat)).length
      = countActiveDeals s pid cat := by
  unfold Db.getDealsByPartnerId countActiveDeals
  rw [List.filter_filter]

theorem countActive_append (s s' : State) (d : DealRec) (pid : Nat)
    (cat : String) (h : s'.deals = s.deals ++ [d]) :
    countActiveDeals s' pid cat = countActiveDeals s pid cat +
      (if (d.isActive && d.category == cat) && d.partnerId == pid
       then 1 else 0) := by
  unfold countActiveDeals
  rw [h, List.filter_append, List.length_append]
  by_cases hd : ((d.isActive && d.category == cat) && d.partnerId == pid) = true
  · simp [List.filter_cons, hd]
  · simp [List.filter_cons, hd]

theorem countActive_deactivate_le (l : List DealRec) (id pid : Nat)
    (cat : String) :
    ((l.map (fun d => if d.id == id then { d with isActive := false } else d)).filter
      (fun d => (d.isActive && d.category == cat) && d.partnerId == pid)).length ≤
    (l.filter (fun d =>
      (d.isActive && d.category == cat) && d.partnerId == pid)).length := by
  induction l with
  | nil => simp
  | cons hd tl ih =>
    simp only [List.map_cons, List.filter_cons]
    by_cases hh : (hd.id == id) = true
    · simp only [if_pos hh]
      have hfalse : ((({ hd with isActive := false } : DealRec).isActive &&
          ({ hd with isActive := false } : DealRec).category == cat) &&
          ({ hd with isActive := false } : DealRec).partnerId == pid) = false := by
        simp
      rw [hfalse]
      simp only [Bool.false_eq_true, if_false]
      by_cases hp : ((hd.isActive && hd.category == cat) && hd.partnerId == pid) = true
      · rw [if_pos hp]
        simp only [List.length_cons]
        exact le_trans ih (Nat.le_succ _)
      · rw [if_neg (by simp [hp])]
        exact ih
    · simp only [if_neg hh]
      by_cases hp : ((hd.isActive && hd.category == cat) && hd.partnerId == pid) = true
      · rw [if_pos hp, if_pos hp]
        simp only [List.length_cons]
        exact Nat.succ_le_succ ih
      · rw [if_neg (by simp [hp]), if_neg (by simp [hp])]
        exact ih

/-- A partner store (user 10, store 1) with no deals yet. -/
def c4Base : State :=
  { stores := [{ id := 1, userId := 10 }], deals := [], visits := [],
    reviews := [], rewards := [], redemptions := [], stats := [],
    dealIdCounter := 1, reviewIdCounter := 1, rewardIdCounter := 1,
    redemptionIdCounter := 1 }

/-- The state reached from `c4Base` by four successful creations through
the deal-creation route: three active "Food" deals and one active
"Automobile" deal, all of store 1. -/
def c4State : State :=
  (Routes.createDealHandler
    (Routes.createDealHandler
      (Routes.createDealHandler
        (Routes.createDealHandler c4Base 10
          { partnerId := 1, name := "d1", category := "Food" }).2 10
        { partnerId := 1, name := "d2", category := "Food" }).2 10
      { partnerId := 1, name := "d3", category := "Food" }).2 10
    { partnerId := 1, name := "d4", category := "Automobile" }).2

/-- C4 counterexample: in a reachable state with 3 active "Food" deals a
4th "Food" creation is indeed rejected (400, deals unchanged), but the
update endpoint re-checks nothing: moving the active "Automobile" deal
into "Food" succeeds (200) and leaves the store with 4 simultaneously
active "Food" deals, breaking the bound the claim says every deal
operation preserves. -/
theorem C4_counterexample :
    countActiveDeals c4State 1 "Food" = 3 ∧
    (Routes.createDealHandler c4State 10
      { partnerId := 1, name := "d5", category := "Food" }).1 = 400 ∧
    (Routes.createDealHandler c4State 10
      { partnerId := 1, name := "d5", category := "Food" }).2.deals =
      c4State.deals ∧
    (Routes.updateDealHandler c4State 10 4 { category := some "Food" }).1 = 200 ∧
    countActiveDeals
      (Routes.updateDealHandler c4State 10 4 { category := some "Food" }).2
      1 "Food" = 4 := by
  refine ⟨by decide, by decide, by decide, by decide, by decide⟩

/-- C4 (amended): creating a 4th active deal in a category where the store
already holds 3 is rejected with 400 and leaves the state unchanged; deal
creation preserves the ≤3-per-store-per-category bound, and so does
deactivation; the update endpoint, however, applies the PATCH body without
re-checking the cap, so an update that moves an active deal into another
category (or reactivates one) can exceed the bound — see the
counterexample. -/
theorem C4_amended_deal_cap (s : State) (u : Nat) (body : InsertDeal)
    (dealId : Nat) (hInv : DealCapOK s) :
    ((∃ store, Db.getPartnerStoreByUserId s u = some store ∧
        3 ≤ countActiveDeals s store.id body.category) →
      Routes.createDealHandler s u body = (400, s)) ∧
    DealCapOK (Routes.createDealHandler s u body).2 ∧
    DealCapOK (Routes.deactivateDealHandler s u dealId).2 := by
  refine ⟨?_, ?_, ?_⟩
  · rintro ⟨store, hSt, hCnt⟩
    unfold Routes.createDealHandler
    rw [hSt]
    dsimp only
    rw [if_pos (by rw [ge_iff_le, route_count_eq]; exact hCnt)]
  · intro pid cat
    unfold Routes.createDealHandler
    cases hSt : Db.getPartnerStoreByUserId s u with
    | none => exact hInv pid cat
    | some store =>
      dsimp only
      by_cases hc : ((Db.getDealsByPartnerId s store.id).filter
          (fun deal => deal.isActive && deal.category == body.category)).length ≥ 3
      · rw [if_pos hc]
        exact hInv pid cat
      · rw [if_neg hc]
        dsimp only
        have happ : (Db.createDeal s { body with partnerId := store.id }).2.deals
            = s.deals ++
              [{ id := s.dealIdCounter, partnerId := store.id, name := body.name,
                 category := body.category, isActive := true }] := by
          unfold Db.createDeal
          rfl
        rw [countActive_append s (Db.createDeal s { body with partnerId := store.id }).2
          { id := s.dealIdCounter, partnerId := store.id, name := body.name,
            category := body.category, isActive := true } pid cat happ]
        by_cases hp : (((true : Bool) && (body.category == cat)) &&
            (store.id == pid)) = true
        · have hp2 : (body.category == cat) = true ∧ (store.id == pid) = true := by
            simpa [Bool.and_eq_true] using hp
          have hcat : body.category = cat := eq_of_beq hp2.1
          have hpid : store.id = pid := eq_of_beq hp2.2
          have hle : countActiveDeals s store.id body.category ≤ 2 := by
            rw [← route_count_eq]
            omega
          rw [hcat, hpid] at hle
          rw [if_pos hp]
          omega
        · rw [if_neg hp]
          have := hInv pid cat
          omega
  · intro pid cat
    unfold Routes.deactivateDealHandler
    cases hSt : Db.getPartnerStoreByUserId s u with
    | none => exact hInv pid cat
    | some store =>
      dsimp only
      cases hDl : Db.getDealById s dealId with
      | none => exact hInv pid cat
      | some deal =>
        dsimp only
        by_cases hm : (deal.partnerId != store.id) = true
        · rw [if_pos hm]
          exact hInv pid cat
        · rw [if_neg hm]
          dsimp only
          refine le_trans ?_ (hInv pid cat)
          unfold Db.deactivateDeal countActiveDeals
          exact countActive_deactivate_le s.deals dealId pid cat

/-- A store holding exactly 3 deals, all active and in "Food". -/
def c4Cap3State : State :=
  { stores := [{ id := 1, userId := 10 }],
    deals := [
      { id := 1, partnerId := 1, name := "d1", category := "Food", isActive := true },
      { id := 2, partnerId := 1, name := "d2", category := "Food", isActive := true },
      { id := 3, partnerId := 1, name := "d3", category := "Food", isActive := true }],
    visits := [], reviews := [], rewards := [], redemptions := [], stats := [],
    dealIdCounter := 4, reviewIdCounter := 1, rewardIdCounter := 1,
    redemptionIdCounter := 1 }

theorem C4_amended_witness :
    Routes.createDealHandler c4Cap3State 10
      { partnerId := 1, name := "d5", category := "Food" } = (400, c4Cap3State) ∧
    countActiveDeals (Routes.deactivateDealHandler c4Cap3State 10 1).2 1 "Food" ≤ 3 := by
  have hInv : DealCapOK c4Cap3State := by
    intro pid cat
    unfold countActiveDeals
    exact le_trans (List.length_filter_le _ _)
      (by decide : c4Cap3State.deals.length ≤ 3)
  have h := C4_amended_deal_cap c4Cap3State 10
    { partnerId := 1, name := "d5", category := "Food" } 1 hInv
  exact ⟨h.1 ⟨{ id := 1, userId := 10 }, by decide, by decide⟩, h.2.2 1 "Food"⟩

/-- An empty initial state. -/
def c9State : State :=
  { stores := [], deals := [], visits := [], reviews := [], rewards := [],
    redemptions := [], stats := [],
    dealIdCounter := 1, reviewIdCounter := 1, rewardIdCounter := 1,
    redemptionIdCounter := 1 }

/-- C9 counterexample: a review with rating 6 (outside 1–5) is accepted
with HTTP 201 and stored — `insertReviewSchema` is
`createInsertSchema(reviews)` with only `id`, `createdAt` and `isPublished`
omitted, so the rating carries no 1–5 refinement, and neither the route nor
`createReview` checks the range; nothing answers 400. -/
theorem C9_counterexample :
    (Routes.submitReviewHandler c9State 1 1 6 none).1 = 201 ∧
    ((Routes.submitReviewHandler c9State 1 1 6 none).2.1.map
      (fun rev => rev.rating)) = some 6 ∧
    ((Routes.submitReviewHandler c9State 1 1 6 none).2.2.reviews.map
      (fun rev => rev.rating)) = [6] := by
  refine ⟨by decide, by decide, by decide⟩

/-- C9 (amended): every accepted review does start unpublished (both
storage implementations store isPublished = false), but the 1–5 bound is
not enforced anywhere: for every integer rating the submit handler answers
201 and stores the rating unchanged, so out-of-range submissions are not
rejected with 400. -/
theorem C9_amended_review_validation (s : State) (u pid : Nat) (rating : Int)
    (comment : Option String) :
    (Routes.submitReviewHandler s u pid rating comment).1 = 201 ∧
    (Routes.submitReviewHandler s u pid rating comment).2.1 =
      some { id := s.reviewIdCounter, userId := u, partnerId := pid,
             rating := rating, comment := comment, isPublished := false } ∧
    (Routes.submitReviewHandler s u pid rating comment).2.2.reviews =
      s.reviews ++
        [{ id := s.reviewIdCounter, userId := u, partnerId := pid,
           rating := rating, comment := comment, isPublished := false }] ∧
    (Mem.createReview s
      { userId := u, partnerId := pid, rating := rating,
        comment := comment }).1.isPublished = false := by
  exact ⟨rfl, rfl, rfl, rfl⟩

theorem mem_incrementActualVisits_parts (s : State) (pid d : Nat) :
    (Mem.incrementActualVisits s pid d).rewards = s.rewards ∧
    (Mem.incrementActualVisits s pid d).visits = s.visits ∧
    (Mem.incrementActualVisits s pid d).redemptions = s.redemptions ∧
    (Mem.incrementActualVisits s pid d).rewardIdCounter = s.rewardIdCounter := by
  unfold Mem.incrementActualVisits
  split <;> exact ⟨rfl, rfl, rfl, rfl⟩

/-- C3: in both storage implementations the reported reward balance is the
sum of the points of the user's Reward entries, and no modelled operation
mutates existing Reward rows or any stored balance (there is no balance
field at all): every operation leaves the reward ledger equal to the old
ledger with zero or more entries appended. -/
theorem C3_balance_sum_and_append_only (s : State) (u : Nat)
    (r : InsertReward) (ir : InsertRedemption) (iv : InsertReview)
    (idl : InsertDeal) (rawCode : String) (uid vid did today : Nat)
    (p : DealPatch) (rating : Int) (comment : Option String) :
    Mem.getTotalRewardPointsByUserId s u =
      ((s.rewards.filter (fun e => e.userId == u)).map (fun e => e.points)).sum ∧
    Db.getTotalRewardPointsByUserId s u =
      ((s.rewards.filter (fun e => e.userId == u)).map (fun e => e.points)).sum ∧
    (∃ t, (Mem.createReward s r).2.rewards = s.rewards ++ t) ∧
    (∃ t, (Db.createReward s r).2.rewards = s.rewards ++ t) ∧
    (∃ t, (Mem.createRedemption s ir rawCode).2.rewards = s.rewards ++ t) ∧
    (match Db.createRedemption s ir with
      | .error _ => True
      | .ok q => ∃ t, q.2.rewards = s.rewards ++ t) ∧
    (∃ t, (Mem.markVisitAsCompleted s vid today).2.rewards = s.rewards ++ t) ∧
    (∃ t, (Db.markVisitAsCompleted s vid today).2.rewards = s.rewards ++ t) ∧
    (∃ t, (Mem.createReview s iv).2.rewards = s.rewards ++ t) ∧
    (∃ t, (Db.createReview s iv).2.rewards = s.rewards ++ t) ∧
    (∃ t, (Routes.consumerCompleteVisitHandler s uid vid today).2.rewards
      = s.rewards ++ t) ∧
    (∃ t, (Routes.partnerCompleteVisitHandler s uid vid today).2.rewards
      = s.rewards ++ t) ∧
    (∃ t, (Routes.redeemHandler s uid ir).2.2.rewards = s.rewards ++ t) ∧
    (∃ t, (Routes.submitReviewHandler s uid did rating comment).2.2.rewards
      = s.rewards ++ t) ∧
    (∃ t, (Routes.createDealHandler s uid idl).2.rewards = s.rewards ++ t) ∧
    (∃ t, (Routes.updateDealHandler s uid did p).2.rewards = s.rewards ++ t) ∧
    (∃ t, (Routes.deactivateDealHandler s uid did).2.rewards = s.rewards ++ t) := by
  refine ⟨(mem_total_eq_db_total s u).trans rfl, rfl, ⟨_, rfl⟩, ⟨_, rfl⟩,
    ⟨_, rfl⟩, trivial, ?_, ?_, ⟨_, rfl⟩,
    ⟨[], by simp [Db.createReview]⟩, ?_, ?_, ?_, ⟨[], by simp
      [Routes.submitReviewHandler, Db.createReview]⟩, ?_, ?_, ?_⟩
  · cases hv : Mem.getVisitById s vid with
    | none =>
      refine ⟨[], ?_⟩
      unfold Mem.markVisitAsCompleted
      rw [hv]
      simp
    | some v =>
      refine ⟨[{ id := s.rewardIdCounter, userId := v.userId, points := 100,
                 reason := "Visited a partner store",
                 referenceId := some v.id }], ?_⟩
      unfold Mem.markVisitAsCompleted
      rw [hv]
      dsimp only
      unfold Mem.createReward
      dsimp only
      rw [(mem_incrementActualVisits_parts _ _ _).1,
          (mem_incrementActualVisits_parts _ _ _).2.2.2]
  · cases hv : Db.getVisitById s vid with
    | none =>
      refine ⟨[], ?_⟩
      unfold Db.markVisitAsCompleted
      rw [hv]
      simp
    | some v =>
      refine ⟨[], ?_⟩
      rw [db_mark_found_eq s vid today v hv]
      dsimp only
      rw [(db_incrementActualVisits_parts _ _ _).1]
      simp
  · cases hv : Db.getVisitById s vid with
    | none =>
      refine ⟨[], ?_⟩
      unfold Routes.consumerCompleteVisitHandler
      rw [hv]
      simp
    | some v =>
      by_cases ho : (v.userId != uid) = true
      · refine ⟨[], ?_⟩
        unfold Routes.consumerCompleteVisitHandler
        rw [hv]
        dsimp only
        rw [if_pos ho]
        simp
      · have hOwn : v.userId = uid := by simpa using ho
        obtain ⟨_, h2, _, _⟩ := consumer_complete_success s uid vid today v hv hOwn
        exact ⟨_, h2⟩
  · cases hSt : Db.getPartnerStoreByUserId s uid with
    | none =>
      refine ⟨[], ?_⟩
      unfold Routes.partnerCompleteVisitHandler
      rw [hSt]
      simp
    | some store =>
      cases hv : Db.getVisitById s vid with
      | none =>
        refine ⟨[], ?_⟩
        unfold Routes.partnerCompleteVisitHandler
        rw [hSt]
        dsimp only
        rw [hv]
        simp
      | some v =>
        refine ⟨[], ?_⟩
        unfold Routes.partnerCompleteVisitHandler
        rw [hSt]
        dsimp only
        rw [hv]
        dsimp only
        by_cases hm : (v.partnerId != store.id) = true
        · rw [if_pos hm]
          simp
        · rw [if_neg hm]
          rw [db_mark_found_eq s vid today v hv]
          dsimp only
          rw [(db_incrementActualVisits_parts _ _ _).1]
          simp
  · have hred : (Routes.redeemHandler s uid ir).2.2.rewards = s.rewards := by
      unfold Routes.redeemHandler
      dsimp only
      by_cases h1 : Db.getTotalRewardPointsByUserId s uid < ir.points
      · rw [if_pos h1]
      · rw [if_neg h1]
        by_cases h2 : ir.points < 500
        · rw [if_pos h2]
        · rw [if_neg h2]
          by_cases h3 : ir.points > 5000
          · rw [if_pos h3]
          · rw [if_neg h3]
            rfl
    refine ⟨[], ?_⟩
    rw [hred]
    simp
  · cases hSt : Db.getPartnerStoreByUserId s uid with
    | none =>
      refine ⟨[], ?_⟩
      unfold Routes.createDealHandler
      rw [hSt]
      simp
    | some store =>
      refine ⟨[], ?_⟩
      unfold Routes.createDealHandler
      rw [hSt]
      dsimp only
      split
      · simp
      · simp [Db.createDeal]
  · cases hSt : Db.getPartnerStoreByUserId s uid with
    | none =>
      refine ⟨[], ?_⟩
      unfold Routes.updateDealHandler
      rw [hSt]
      simp
    | some store =>
      cases hDl : Db.getDealById s did with
      | none =>
        refine ⟨[], ?_⟩
        unfold Routes.updateDealHandler
        rw [hSt]
        dsimp only
        rw [hDl]
        simp
      | some deal =>
        refine ⟨[], ?_⟩
        unfold Routes.updateDealHandler
        rw [hSt]
        dsimp only
        rw [hDl]
        dsimp only
        split
        · simp
        · simp [Db.updateDeal]
  · cases hSt : Db.getPartnerStoreByUserId s uid with
    | none =>
      refine ⟨[], ?_⟩
      unfold Routes.deactivateDealHandler
      rw [hSt]
      simp
    | some store =>
      cases hDl : Db.getDealById s did with
      | none =>
        refine ⟨[], ?_⟩
        unfold Routes.deactivateDealHandler
        rw [hSt]
        dsimp only
        rw [hDl]
        simp
      | some deal =>
        refine ⟨[], ?_⟩
        unfold Routes.deactivateDealHandler
        rw [hSt]
        dsimp only
        rw [hDl]
        dsimp only
        split
        · simp
        · simp [Db.deactivateDeal]

end ShopPuls
